import Mathlib

/-!
Verification of the prompt-runner evaluation harness.

The Python sources are shallowly embedded:
* Python dicts become association lists (`Dict K V`) whose update
  operation `pyUpdate` has the last-writer-wins semantics of
  `dict.update`;
* the filesystem becomes an explicit record `FS` of directories and
  files, threaded through the persistence functions;
* machine floats (durations in seconds) are modelled by exact rationals,
  with decimal rounding made explicit;
* current time and the random suffix drawn by the identifier generator
  are inputs of the embedded functions;
* the generation backends (ollama, stable-diffusion) are external
  collaborators and enter the embedding as function parameters.
-/

namespace PromptRunner

/-- A Python dict, embedded as an association list (first binding of a
key is the authoritative one; dicts built by the embedded code keep
their keys nodup). -/
abbrev Dict (K V : Type) := List (K × V)

/-- Lookup of a key in an embedded dict: the first binding wins. -/
def dlookup {K V : Type} [DecidableEq K] : Dict K V → K → Option V
  | [], _ => none
  | (k, v) :: rest, key => if k = key then some v else dlookup rest key

/-- `d[k] = v` on a Python dict: replace the binding of `k` when the key
is present (keeping its position), append the binding otherwise. -/
def pyInsert {K V : Type} [DecidableEq K] : Dict K V → K → V → Dict K V
  | [], k, v => [(k, v)]
  | (k0, v0) :: rest, k, v =>
      if k0 = k then (k, v) :: rest else (k0, v0) :: pyInsert rest k v

/-- `d.update(src)` on Python dicts: apply the bindings of `src` in
order, overwriting on key collision. -/
def pyUpdate {K V : Type} [DecidableEq K] (d : Dict K V) (src : Dict K V) : Dict K V :=
  src.foldl (fun acc kv => pyInsert acc kv.1 kv.2) d

/-- The keys of an embedded dict. -/
def dkeys {K V : Type} (d : Dict K V) : List K := d.map Prod.fst

/-- A well-formed dict binds each key at most once (every dict produced
by Python dict operations satisfies this). -/
def NodupKeys {K V : Type} (d : Dict K V) : Prop := (dkeys d).Nodup

instance {K V : Type} [DecidableEq K] (d : Dict K V) : Decidable (NodupKeys d) :=
  inferInstanceAs (Decidable (dkeys d).Nodup)

/-- Python truthiness of an optional dict argument: `None` and the empty
dict are falsy. -/
def dictTruthy {K V : Type} : Option (Dict K V) → Bool
  | none => false
  | some d => !d.isEmpty

/-- `merge_options` from `prompt_runner/utils.py`: layer global
defaults, model options and prompt options, later layers overwriting on
key collision; the body guards each layer with Python truthiness. -/
def merge_options {V : Type} (global_defaults model_options prompt_options : Option (Dict String V)) :
    Dict String V :=
  let merged : Dict String V := []
  let merged := if dictTruthy global_defaults then pyUpdate merged (global_defaults.getD []) else merged
  let merged := if dictTruthy model_options then pyUpdate merged (model_options.getD []) else merged
  let merged := if dictTruthy prompt_options then pyUpdate merged (prompt_options.getD []) else merged
  merged

/-- `merge_image_options` from `prompt_runner/utils.py`; its body is
textually identical to `merge_options`. -/
def merge_image_options {V : Type} (global_defaults model_options prompt_options : Option (Dict String V)) :
    Dict String V :=
  let merged : Dict String V := []
  let merged := if dictTruthy global_defaults then pyUpdate merged (global_defaults.getD []) else merged
  let merged := if dictTruthy model_options then pyUpdate merged (model_options.getD []) else merged
  let merged := if dictTruthy prompt_options then pyUpdate merged (prompt_options.getD []) else merged
  merged

/-- The value a three-layer merge should give at a key according to the
specification: the highest-priority layer that binds the key wins, with
priority prompt > model > global. -/
def specLayerValue {V : Type} (g m p : Option (Dict String V)) (k : String) : Option V :=
  match dlookup (p.getD []) k with
  | some v => some v
  | none =>
    match dlookup (m.getD []) k with
    | some v => some v
    | none => dlookup (g.getD []) k

theorem dlookup_pyInsert {K V : Type} [DecidableEq K] (d : Dict K V) (k key : K) (v : V) :
    dlookup (pyInsert d k v) key = if k = key then some v else dlookup d key := by
  induction d with
  | nil => simp [pyInsert, dlookup]
  | cons hd tl ih =>
    obtain ⟨k0, v0⟩ := hd
    by_cases h0 : k0 = k
    · subst h0
      by_cases hk : k0 = key
      · subst hk; simp [pyInsert, dlookup]
      · simp [pyInsert, dlookup, hk]
    · by_cases hk : k0 = key
      · subst hk
        have hne : ¬ k = k0 := fun h => h0 h.symm
        simp [pyInsert, dlookup, h0, hne]
      · simp [pyInsert, dlookup, h0, hk, ih]

theorem dlookup_eq_none_of_not_mem {K V : Type} [DecidableEq K] (d : Dict K V) (key : K)
    (h : key ∉ dkeys d) : dlookup d key = none := by
  induction d with
  | nil => rfl
  | cons hd tl ih =>
    obtain ⟨k0, v0⟩ := hd
    simp only [dkeys, List.map_cons, List.mem_cons] at h
    push_neg at h
    have hk : k0 ≠ key := fun hh => h.1 hh.symm
    simpa [dlookup, hk] using ih (by simpa [dkeys] using h.2)

theorem dlookup_pyUpdate {K V : Type} [DecidableEq K] (d src : Dict K V)
    (hsrc : NodupKeys src) (key : K) :
    dlookup (pyUpdate d src) key =
      match dlookup src key with
      | some v => some v
      | none => dlookup d key := by
  induction src generalizing d with
  | nil => simp [pyUpdate, dlookup]
  | cons hd tl ih =>
    obtain ⟨k0, v0⟩ := hd
    have h0 : (k0 :: dkeys tl).Nodup := hsrc
    have htl : NodupKeys tl := (List.nodup_cons.mp h0).2
    have hnotin : k0 ∉ dkeys tl := (List.nodup_cons.mp h0).1
    have step : pyUpdate d ((k0, v0) :: tl) = pyUpdate (pyInsert d k0 v0) tl := by
      simp [pyUpdate]
    rw [step, ih _ htl]
    by_cases hk : k0 = key
    · subst hk
      have : dlookup tl k0 = none := dlookup_eq_none_of_not_mem tl k0 hnotin
      simp [dlookup, this, dlookup_pyInsert]
    · simp [dlookup, hk, dlookup_pyInsert]

theorem dlookup_isSome_iff_mem {K V : Type} [DecidableEq K] (d : Dict K V) (key : K) :
    (dlookup d key).isSome = true ↔ key ∈ dkeys d := by
  induction d with
  | nil => simp [dlookup, dkeys]
  | cons hd tl ih =>
    obtain ⟨k0, v0⟩ := hd
    by_cases hk : k0 = key
    · subst hk; simp [dlookup, dkeys]
    · simpa [dlookup, dkeys, hk, Ne.symm hk] using ih

/-- The three-layer merge, evaluated at a key, is the highest-priority
layer that binds the key. -/
theorem merge_options_dlookup {V : Type} (g m p : Option (Dict String V))
    (hg : NodupKeys (g.getD [])) (hm : NodupKeys (m.getD [])) (hp : NodupKeys (p.getD []))
    (key : String) :
    dlookup (merge_options g m p) key = specLayerValue g m p key := by
  have layer :
      ∀ (d : Dict String V) (o : Option (Dict String V)), NodupKeys (o.getD []) →
        dlookup (if dictTruthy o then pyUpdate d (o.getD []) else d) key =
          match dlookup (o.getD []) key with
          | some v => some v
          | none => dlookup d key := by
    intro d o ho
    match o with
    | none => simp [dictTruthy, dlookup]
    | some l =>
      match l with
      | [] => simp [dictTruthy, dlookup]
      | kv :: rest =>
        simpa [dictTruthy] using dlookup_pyUpdate d (kv :: rest) ho key
  unfold merge_options specLayerValue
  rw [layer _ p hp, layer _ m hm, layer _ g hg]
  cases dlookup (p.getD []) key <;>
    cases dlookup (m.getD []) key <;>
      cases dlookup (g.getD []) key <;> simp [dlookup]

/-- The two merge functions have textually identical bodies. -/
theorem merge_image_options_eq_merge_options {V : Type}
    (g m p : Option (Dict String V)) :
    merge_image_options g m p = merge_options g m p := rfl

/-- C1: `merge_options(g, m, p)` (and identically `merge_image_options`)
returns a map whose key set is the union of the key sets of the three
layers, each key taking its value from the highest-priority layer that
binds it (prompt > model > global); an absent (`None`) argument behaves
as the empty map. -/
theorem merge_options_union_and_priority_C1 {V : Type}
    (g m p : Option (Dict String V))
    (hg : NodupKeys (g.getD [])) (hm : NodupKeys (m.getD [])) (hp : NodupKeys (p.getD [])) :
    (∀ k, k ∈ dkeys (merge_options g m p) ↔
        k ∈ dkeys (g.getD []) ∨ k ∈ dkeys (m.getD []) ∨ k ∈ dkeys (p.getD [])) ∧
    (∀ k, dlookup (merge_options g m p) k = specLayerValue g m p k) ∧
    merge_image_options g m p = merge_options g m p := by
  refine ⟨?_, fun k => merge_options_dlookup g m p hg hm hp k, rfl⟩
  intro k
  rw [← dlookup_isSome_iff_mem, ← dlookup_isSome_iff_mem, ← dlookup_isSome_iff_mem,
    ← dlookup_isSome_iff_mem, merge_options_dlookup g m p hg hm hp k]
  unfold specLayerValue
  cases dlookup (p.getD []) k <;>
    cases dlookup (m.getD []) k <;>
      cases dlookup (g.getD []) k <;> simp

/-- Witness for C1 at concrete inputs: the prompt layer wins on the
shared key. -/
theorem merge_options_union_and_priority_C1_witness :
    dlookup (merge_options (some [("a", 1), ("b", 2)]) (some [("b", 3), ("c", 4)])
        (some [("c", 5), ("d", 6)])) "c" =
      specLayerValue (some [("a", 1), ("b", 2)]) (some [("b", 3), ("c", 4)])
        (some [("c", 5), ("d", 6)]) "c" :=
  (merge_options_union_and_priority_C1 (some [("a", 1), ("b", 2)]) (some [("b", 3), ("c", 4)])
    (some [("c", 5), ("d", 6)]) (by decide) (by decide) (by decide)).2.1 "c"

/-! ## Filesystem name sanitizer (`utils.py`, both evolutions) -/

/-- The characters replaced by `sanitize_fs_name` (the character class of
the `re.sub` in the source). -/
def badFsChars : List Char := ['<', '>', ':', '\"', '/', '\\', '|', '?', '*']

/-- Per-character action of the `re.sub`: a character of the class is
replaced by an underscore, every other character passes through. -/
def sanitizeFsChar (c : Char) : Char := if c ∈ badFsChars then '_' else c

/-- `sanitize_fs_name` from `utils.py`: the single-character-class
`re.sub` acts independently on every character of the string. -/
def sanitize_fs_name (name : String) : String := String.mk (name.data.map sanitizeFsChar)

theorem string_mk_data (s : String) : String.mk s.data = s := rfl

theorem sanitizeFsChar_idem (c : Char) : sanitizeFsChar (sanitizeFsChar c) = sanitizeFsChar c := by
  by_cases h : c ∈ badFsChars
  · simp [sanitizeFsChar, h]
  · simp [sanitizeFsChar, h]

/-- C9: `sanitize_fs_name` maps each character of `< > : \" / \ | ? *`
to an underscore and leaves every other character unchanged; it is total
(the empty string maps to the empty string) and idempotent. -/
theorem sanitize_fs_name_spec_C9 (x : String) :
    (sanitize_fs_name x).data = x.data.map sanitizeFsChar ∧
    (∀ c, c ∈ badFsChars → sanitizeFsChar c = '_') ∧
    (∀ c, c ∉ badFsChars → sanitizeFsChar c = c) ∧
    sanitize_fs_name "" = "" ∧
    sanitize_fs_name (sanitize_fs_name x) = sanitize_fs_name x := by
  refine ⟨rfl, fun c hc => by simp [sanitizeFsChar, hc], fun c hc => by simp [sanitizeFsChar, hc],
    rfl, ?_⟩
  show String.mk ((x.data.map sanitizeFsChar).map sanitizeFsChar) = String.mk (x.data.map sanitizeFsChar)
  rw [List.map_map]
  congr 1
  exact List.map_congr_left fun c _ => sanitizeFsChar_idem c

/-! ## Run identifier generation (`utils.py`) -/

/-- A UTC wall-clock instant at second resolution, the input
`datetime.now(timezone.utc)` of `generate_run_identifiers`. -/
structure UtcTime where
  year : Nat
  month : Nat
  day : Nat
  hour : Nat
  minute : Nat
  second : Nat

/-- A decimal digit character, used to model the zero-padded decimal
fields of `strftime`. -/
def decDigit (n : Nat) : Char := Char.ofNat (48 + n % 10)

/-- A two-digit zero-padded decimal field (`%m %d %H %M %S`, whose
values are below 100 for a valid instant). -/
def pad2 (n : Nat) : List Char := [decDigit (n / 10), decDigit n]

/-- The four-digit year field `%Y` (years 1000-9999 print as 4 digits). -/
def pad4 (n : Nat) : List Char :=
  [decDigit (n / 1000), decDigit (n / 100), decDigit (n / 10), decDigit n]

/-- `now.strftime("%Y-%m-%dT%H:%M:%SZ")`. -/
def format_created_at (t : UtcTime) : String :=
  String.mk (pad4 t.year ++ ['-'] ++ pad2 t.month ++ ['-'] ++ pad2 t.day ++ ['T'] ++
    pad2 t.hour ++ [':'] ++ pad2 t.minute ++ [':'] ++ pad2 t.second ++ ['Z'])

/-- `now.strftime("%Y-%m-%d_%H-%M-%SZ")`. -/
def format_run_dir_stamp (t : UtcTime) : String :=
  String.mk (pad4 t.year ++ ['-'] ++ pad2 t.month ++ ['-'] ++ pad2 t.day ++ ['_'] ++
    pad2 t.hour ++ ['-'] ++ pad2 t.minute ++ ['-'] ++ pad2 t.second ++ ['Z'])

/-- One lowercase hexadecimal digit (values 0-15). -/
def hexDigit (n : Nat) : Char :=
  if n % 16 < 10 then Char.ofNat (48 + n % 16) else Char.ofNat (87 + n % 16)

/-- `secrets.token_hex(3)`: three random bytes rendered as six lowercase
hexadecimal characters. -/
def token_hex3 (b0 b1 b2 : Nat) : String :=
  String.mk [hexDigit (b0 / 16), hexDigit b0, hexDigit (b1 / 16), hexDigit b1,
    hexDigit (b2 / 16), hexDigit b2]

/-- `generate_run_identifiers` from `utils.py`; the current instant and
the three random suffix bytes are inputs of the embedding. -/
def generate_run_identifiers (now : UtcTime) (b0 b1 b2 : Nat) : String × String × String :=
  let created_at := format_created_at now
  let suffix := token_hex3 b0 b1 b2
  let run_id := created_at ++ "-" ++ suffix
  let run_dir_name := format_run_dir_stamp now ++ "-" ++ suffix
  (run_id, run_dir_name, created_at)

/-- The reformatting named by the specification: the `T` separator
becomes `_` and each colon becomes `-`. -/
def replTZChar (c : Char) : Char := if c = 'T' then '_' else if c = ':' then '-' else c

/-- Apply `replTZChar` to every character of a string. -/
def replaceTZ (s : String) : String := String.mk (s.data.map replTZChar)

/-- A lowercase hexadecimal digit character. -/
def isLowerHexDigit (c : Char) : Prop :=
  ('0' ≤ c ∧ c ≤ '9') ∨ ('a' ≤ c ∧ c ≤ 'f')

instance (c : Char) : Decidable (isLowerHexDigit c) :=
  inferInstanceAs (Decidable (_ ∨ _))

theorem replTZChar_decDigit (n : Nat) : replTZChar (decDigit n) = decDigit n := by
  unfold decDigit
  have h : n % 10 < 10 := Nat.mod_lt _ (by omega)
  set r := n % 10 with hr
  interval_cases r <;> decide

theorem replTZChar_hexDigit (n : Nat) : replTZChar (hexDigit n) = hexDigit n := by
  unfold hexDigit
  have h : n % 16 < 16 := Nat.mod_lt _ (by omega)
  set r := n % 16 with hr
  interval_cases r <;> decide

theorem hexDigit_isLowerHex (n : Nat) : isLowerHexDigit (hexDigit n) := by
  unfold hexDigit
  have h : n % 16 < 16 := Nat.mod_lt _ (by omega)
  set r := n % 16 with hr
  interval_cases r <;> decide

theorem string_data_append (s t : String) : (s ++ t).data = s.data ++ t.data := rfl

/-- C8: every triple returned by `generate_run_identifiers` is built
from a single timestamp and a single 6-lowercase-hex suffix:
`run_id = created_at ++ "-" ++ suffix`, `created_at` is a prefix of
`run_id`, and `run_dir_name` is `run_id` with the `T` separator replaced
by `_` and each colon replaced by `-`. -/
theorem generate_run_identifiers_spec_C8 (t : UtcTime) (b0 b1 b2 : Nat) :
    ∃ suffix : String,
      suffix.length = 6 ∧
      (∀ c ∈ suffix.data, isLowerHexDigit c) ∧
      (generate_run_identifiers t b0 b1 b2).1 =
        (generate_run_identifiers t b0 b1 b2).2.2 ++ "-" ++ suffix ∧
      (∃ rest, (generate_run_identifiers t b0 b1 b2).1 =
        (generate_run_identifiers t b0 b1 b2).2.2 ++ rest) ∧
      (generate_run_identifiers t b0 b1 b2).2.1 =
        replaceTZ (generate_run_identifiers t b0 b1 b2).1 := by
  refine ⟨token_hex3 b0 b1 b2, rfl, ?_, rfl, ⟨"-" ++ token_hex3 b0 b1 b2, ?_⟩, ?_⟩
  · intro c hc
    simp only [token_hex3, List.mem_cons, List.not_mem_nil, or_false] at hc
    rcases hc with h | h | h | h | h | h <;> rw [h] <;> exact hexDigit_isLowerHex _
  · show format_created_at t ++ "-" ++ token_hex3 b0 b1 b2 =
      format_created_at t ++ ("-" ++ token_hex3 b0 b1 b2)
    apply congrArg String.mk
    show (format_created_at t ++ "-").data ++ (token_hex3 b0 b1 b2).data =
      (format_created_at t).data ++ ("-" ++ token_hex3 b0 b1 b2).data
    simp [string_data_append, List.append_assoc]
  · show format_run_dir_stamp t ++ "-" ++ token_hex3 b0 b1 b2 =
      replaceTZ (format_created_at t ++ "-" ++ token_hex3 b0 b1 b2)
    apply congrArg String.mk
    show (format_run_dir_stamp t ++ "-").data ++ (token_hex3 b0 b1 b2).data =
      ((format_created_at t ++ "-").data ++ (token_hex3 b0 b1 b2).data).map replTZChar
    simp only [string_data_append, format_created_at, format_run_dir_stamp, token_hex3,
      List.map_append, List.map_cons, List.map_nil, replTZChar_decDigit, replTZChar_hexDigit]
    simp [pad4, pad2, replTZChar_decDigit]
    decide

/-! ## Text response normalization (`llm_runner.py`)

Durations are nanosecond integers from the backend; `round(x, 3)` on the
resulting seconds is modelled exactly over the rationals (round half
up on the third decimal). -/

/-- Rounding to the nearest integer, halves up, over the rationals. -/
def pyRoundInt (x : ℚ) : ℤ := ⌊x + 1 / 2⌋

/-- Python `round(x, 3)` modelled over the rationals. -/
def round3 (x : ℚ) : ℚ := (pyRoundInt (1000 * x) : ℚ) / 1000

/-- Nanoseconds to seconds: `x / 1e9`. -/
def ns_to_seconds (ns : Nat) : ℚ := (ns : ℚ) / 1000000000

/-- The response dict of `ollama.Client.generate`: the `response` text
is required, every metric field is optional (`.get` in the source). -/
structure OllamaGenerateResponse where
  response : String
  done_reason : Option String
  prompt_eval_count : Option Nat
  eval_count : Option Nat
  load_duration : Option Nat
  prompt_eval_duration : Option Nat
  eval_duration : Option Nat
  total_duration : Option Nat
deriving DecidableEq

/-- The `message` object of an `ollama.chat` response. -/
structure MessageBody where
  content : String
deriving DecidableEq

/-- The response dict of `ollama.chat`: the `message.content` text is
required, every metric field is optional. -/
structure OllamaChatResponse where
  message : MessageBody
  done_reason : Option String
  prompt_eval_count : Option Nat
  eval_count : Option Nat
  load_duration : Option Nat
  prompt_eval_duration : Option Nat
  eval_duration : Option Nat
  total_duration : Option Nat
deriving DecidableEq

/-- The `metrics` block of the canonical result shape. -/
structure LlmMetrics where
  done_reason : Option String
  input_tokens : Option Nat
  output_tokens : Option Nat
  total_tokens : Option Nat
  load_seconds : Option ℚ
  input_seconds : Option ℚ
  output_seconds : Option ℚ
  total_seconds : Option ℚ
  output_tokens_per_second : Option ℚ
deriving DecidableEq

/-- The canonical normalized response: `{output: {text}, metrics: {...}}`. -/
structure LlmResponse where
  output_text : String
  metrics : LlmMetrics
deriving DecidableEq

/-- The normalization half of `generate_response_completion` (the
backend call itself is the collaborator; its response is the input). -/
def generate_response_completion (response : OllamaGenerateResponse) : LlmResponse :=
  let input_tokens := response.prompt_eval_count
  let output_tokens := response.eval_count
  let total_tokens : Option Nat :=
    match input_tokens, output_tokens with
    | some i, some o => some (i + o)
    | _, _ => none
  let load_seconds := response.load_duration.map (fun d => round3 (ns_to_seconds d))
  let input_seconds := response.prompt_eval_duration.map (fun d => round3 (ns_to_seconds d))
  let output_seconds := response.eval_duration.map (fun d => round3 (ns_to_seconds d))
  let total_seconds := response.total_duration.map (fun d => round3 (ns_to_seconds d))
  let output_tokens_per_second : Option ℚ :=
    match output_tokens, output_seconds with
    | some o, some s => if 0 < s then some (round3 ((o : ℚ) / s)) else none
    | _, _ => none
  { output_text := response.response,
    metrics :=
      { done_reason := response.done_reason,
        input_tokens := input_tokens,
        output_tokens := output_tokens,
        total_tokens := total_tokens,
        load_seconds := load_seconds,
        input_seconds := input_seconds,
        output_seconds := output_seconds,
        total_seconds := total_seconds,
        output_tokens_per_second := output_tokens_per_second } }

/-- The normalization half of `generate_response_chat`; its metric block
is textually identical to the completion one, the output text comes from
`response["message"]["content"]`. -/
def generate_response_chat (response : OllamaChatResponse) : LlmResponse :=
  let input_tokens := response.prompt_eval_count
  let output_tokens := response.eval_count
  let total_tokens : Option Nat :=
    match input_tokens, output_tokens with
    | some i, some o => some (i + o)
    | _, _ => none
  let load_seconds := response.load_duration.map (fun d => round3 (ns_to_seconds d))
  let input_seconds := response.prompt_eval_duration.map (fun d => round3 (ns_to_seconds d))
  let output_seconds := response.eval_duration.map (fun d => round3 (ns_to_seconds d))
  let total_seconds := response.total_duration.map (fun d => round3 (ns_to_seconds d))
  let output_tokens_per_second : Option ℚ :=
    match output_tokens, output_seconds with
    | some o, some s => if 0 < s then some (round3 ((o : ℚ) / s)) else none
    | _, _ => none
  { output_text := response.message.content,
    metrics :=
      { done_reason := response.done_reason,
        input_tokens := input_tokens,
        output_tokens := output_tokens,
        total_tokens := total_tokens,
        load_seconds := load_seconds,
        input_seconds := input_seconds,
        output_seconds := output_seconds,
        total_seconds := total_seconds,
        output_tokens_per_second := output_tokens_per_second } }

/-- View a chat response as a generate response with the same text. -/
def chatAsGenerate (r : OllamaChatResponse) : OllamaGenerateResponse :=
  { response := r.message.content,
    done_reason := r.done_reason,
    prompt_eval_count := r.prompt_eval_count,
    eval_count := r.eval_count,
    load_duration := r.load_duration,
    prompt_eval_duration := r.prompt_eval_duration,
    eval_duration := r.eval_duration,
    total_duration := r.total_duration }

/-- C5: text normalization computes `total_tokens` exactly when both
counts are present (their sum, never zero-filled), converts each present
duration from nanoseconds to seconds rounded to 3 decimals (`none` when
absent), computes throughput exactly when the output token count is
present and the rounded output seconds are strictly positive, degrades
to all-null metrics on a response with no metric fields, reproduces the
spec example, and chat normalization behaves identically. -/
theorem normalize_response_spec_C5 (r : OllamaGenerateResponse) :
    (((generate_response_completion r).metrics.total_tokens).isSome ↔
        r.prompt_eval_count.isSome ∧ r.eval_count.isSome) ∧
    (∀ i o, r.prompt_eval_count = some i → r.eval_count = some o →
        (generate_response_completion r).metrics.total_tokens = some (i + o)) ∧
    (generate_response_completion r).metrics.load_seconds =
      r.load_duration.map (fun d => round3 (ns_to_seconds d)) ∧
    (generate_response_completion r).metrics.input_seconds =
      r.prompt_eval_duration.map (fun d => round3 (ns_to_seconds d)) ∧
    (generate_response_completion r).metrics.output_seconds =
      r.eval_duration.map (fun d => round3 (ns_to_seconds d)) ∧
    (generate_response_completion r).metrics.total_seconds =
      r.total_duration.map (fun d => round3 (ns_to_seconds d)) ∧
    (((generate_response_completion r).metrics.output_tokens_per_second).isSome ↔
        r.eval_count.isSome ∧ ∃ d, r.eval_duration = some d ∧ 0 < round3 (ns_to_seconds d)) ∧
    (∀ o d, r.eval_count = some o → r.eval_duration = some d → 0 < round3 (ns_to_seconds d) →
        (generate_response_completion r).metrics.output_tokens_per_second =
          some (round3 ((o : ℚ) / round3 (ns_to_seconds d)))) ∧
    (∀ s, generate_response_completion ⟨s, none, none, none, none, none, none, none⟩ =
        ⟨s, ⟨none, none, none, none, none, none, none, none, none⟩⟩) ∧
    generate_response_completion
        ⟨"hi", none, some 10, some 20, none, none, some 2345000000, none⟩ =
      ⟨"hi", ⟨none, some 10, some 20, some 30, none, none, some (2345 / 1000), none,
        some (8529 / 1000)⟩⟩ ∧
    (∀ c : OllamaChatResponse,
        generate_response_chat c = generate_response_completion (chatAsGenerate c)) := by
  refine ⟨?_, ?_, rfl, rfl, rfl, rfl, ?_, ?_, fun s => rfl, ?_, fun c => rfl⟩
  · cases hpec : r.prompt_eval_count <;> cases hec : r.eval_count <;>
      simp [generate_response_completion, hpec, hec]
  · intro i o hi ho
    simp [generate_response_completion, hi, ho]
  · cases hc : r.eval_count with
    | none => cases r.eval_duration <;> simp [generate_response_completion, hc]
    | some o =>
      cases hd : r.eval_duration with
      | none => simp [generate_response_completion, hc, hd]
      | some d =>
        by_cases hpos : 0 < round3 (ns_to_seconds d) <;>
          simp [generate_response_completion, hc, hd, hpos]
  · intro o d ho hd hpos
    simp [generate_response_completion, ho, hd, hpos]
  · simp only [generate_response_completion, LlmResponse.mk.injEq, LlmMetrics.mk.injEq]
    norm_num [round3, pyRoundInt, ns_to_seconds]

/-! ## Filesystem model and result store (`utils.py`, `llm_runner.py`, `image_runner.py`) -/

/-- A filesystem path, as the list of its segments. -/
abbrev FsPath := List String

/-- JSON values, the contents of the `.json` artifacts. -/
inductive JVal where
  | null : JVal
  | bool (b : Bool) : JVal
  | int (n : Int) : JVal
  | rat (q : ℚ) : JVal
  | str (s : String) : JVal
  | arr (elems : List JVal) : JVal
  | obj (fields : List (String × JVal)) : JVal

/-- Contents of a file written by the harness. -/
inductive FileData where
  | jsonFile (j : JVal)
  | textFile (s : String)
  | pngFile (img : Nat)

/-- The filesystem: the set of directories and the files with their
contents. -/
structure FS where
  dirs : List FsPath
  files : Dict FsPath FileData

/-- `Path.exists`: the path names a directory or a file. -/
def pathExists (fs : FS) (p : FsPath) : Prop := p ∈ fs.dirs ∨ p ∈ dkeys fs.files

instance (fs : FS) (p : FsPath) : Decidable (pathExists fs p) :=
  inferInstanceAs (Decidable (_ ∨ _))

/-- `Path.is_dir`. -/
def isDir (fs : FS) (p : FsPath) : Prop := p ∈ fs.dirs

/-- The nonempty prefixes of a path: the path itself and every ancestor. -/
def initsNE : FsPath → List FsPath
  | [] => []
  | x :: xs => [x] :: (initsNE xs).map (fun q => x :: q)

/-- `path.mkdir(parents=True, exist_ok=True)`: create the directory and
every missing ancestor. -/
def mkdir_parents (fs : FS) (p : FsPath) : FS :=
  { fs with dirs := fs.dirs ++ (initsNE p).filter (fun q => decide (q ∉ fs.dirs)) }

/-- `path.mkdir(exist_ok=True)`: create the directory when missing. -/
def mkdir_exist_ok (fs : FS) (p : FsPath) : FS :=
  { fs with dirs := if p ∈ fs.dirs then fs.dirs else fs.dirs ++ [p] }

/-- `open(p, "w")` followed by a full write: create or overwrite. -/
def write_file (fs : FS) (p : FsPath) (d : FileData) : FS :=
  { fs with files := pyInsert fs.files p d }

/-- Python exceptions raised by the embedded code. -/
inductive PyErr where
  | valueError (msg : String)
  | fileExistsError (msg : String)
  | fileNotFoundError (msg : String)
  | keyError (msg : String)

/-- Render a path for an error message. -/
def pathToString (p : FsPath) : String := String.intercalate "/" p

/-- `create_result_structure` from `utils.py`: fail when the run
directory already exists, otherwise create it with its parents. -/
def create_result_structure (run_dir_name : String) (results_dir : FsPath) (fs : FS) :
    Except PyErr FsPath × FS :=
  let run_path := results_dir ++ [run_dir_name]
  if pathExists fs run_path then
    (.error (.fileExistsError ("Run directory already exists: " ++ pathToString run_path)), fs)
  else
    (.ok run_path, mkdir_parents fs run_path)

theorem mem_initsNE_self (p : FsPath) (h : p ≠ []) : p ∈ initsNE p := by
  induction p with
  | nil => exact absurd rfl h
  | cons x xs ih =>
    cases xs with
    | nil => simp [initsNE]
    | cons y ys =>
      have hmem : y :: ys ∈ initsNE (y :: ys) := ih (by simp)
      show x :: y :: ys ∈ [x] :: (initsNE (y :: ys)).map (fun q => x :: q)
      exact List.mem_cons.mpr (Or.inr (List.mem_map.mpr ⟨y :: ys, hmem, rfl⟩))

theorem mem_dirs_mkdir_parents (fs : FS) (p q : FsPath) :
    q ∈ (mkdir_parents fs p).dirs ↔ q ∈ fs.dirs ∨ q ∈ initsNE p := by
  simp only [mkdir_parents, List.mem_append, List.mem_filter, decide_eq_true_eq]
  constructor
  · rintro (h | ⟨h, _⟩)
    · exact .inl h
    · exact .inr h
  · rintro (h | h)
    · exact .inl h
    · by_cases hd : q ∈ fs.dirs
      · exact .inl hd
      · exact .inr ⟨h, hd⟩

theorem mkdir_parents_idem (fs : FS) (p : FsPath) :
    mkdir_parents (mkdir_parents fs p) p = mkdir_parents fs p := by
  have hmem : ∀ q ∈ initsNE p, q ∈ (mkdir_parents fs p).dirs := fun q hq => by
    by_cases hd : q ∈ fs.dirs
    · exact (mem_dirs_mkdir_parents fs p q).mpr (.inl hd)
    · exact (mem_dirs_mkdir_parents fs p q).mpr (.inr hq)
  show FS.mk _ _ = FS.mk _ _
  simp only [mkdir_parents]
  congr 1
  have hnil : (initsNE p).filter (fun q => decide (q ∉ (mkdir_parents fs p).dirs)) = [] := by
    rw [List.filter_eq_nil_iff]
    intro q hq
    simp only [decide_eq_true_eq, not_not]
    exact hmem q hq
  calc (mkdir_parents fs p).dirs ++
        (initsNE p).filter (fun q => decide (q ∉ (mkdir_parents fs p).dirs))
      = (mkdir_parents fs p).dirs ++ [] := by rw [hnil]
    _ = (mkdir_parents fs p).dirs := List.append_nil _

/-- C2: if the run directory already exists, `create_result_structure`
raises an "already exists" error and leaves the filesystem unchanged;
otherwise it creates the directory (with parents) and returns its path,
after which the path exists, is a directory, and a second identical
call always fails. -/
theorem create_result_structure_spec_C2 (run_dir_name : String) (results_dir : FsPath) (fs : FS) :
    (pathExists fs (results_dir ++ [run_dir_name]) →
      create_result_structure run_dir_name results_dir fs =
        (.error (.fileExistsError ("Run directory already exists: " ++
          pathToString (results_dir ++ [run_dir_name]))), fs)) ∧
    (¬ pathExists fs (results_dir ++ [run_dir_name]) →
      create_result_structure run_dir_name results_dir fs =
        (.ok (results_dir ++ [run_dir_name]), mkdir_parents fs (results_dir ++ [run_dir_name])) ∧
      pathExists (mkdir_parents fs (results_dir ++ [run_dir_name])) (results_dir ++ [run_dir_name]) ∧
      isDir (mkdir_parents fs (results_dir ++ [run_dir_name])) (results_dir ++ [run_dir_name]) ∧
      create_result_structure run_dir_name results_dir
          (mkdir_parents fs (results_dir ++ [run_dir_name])) =
        (.error (.fileExistsError ("Run directory already exists: " ++
          pathToString (results_dir ++ [run_dir_name]))),
          mkdir_parents fs (results_dir ++ [run_dir_name]))) := by
  constructor
  · intro h
    simp [create_result_structure, h]
  · intro h
    have hne : results_dir ++ [run_dir_name] ≠ [] := by simp
    have hdir : isDir (mkdir_parents fs (results_dir ++ [run_dir_name]))
        (results_dir ++ [run_dir_name]) :=
      (mem_dirs_mkdir_parents fs _ _).mpr (.inr (mem_initsNE_self _ hne))
    have hex : pathExists (mkdir_parents fs (results_dir ++ [run_dir_name]))
        (results_dir ++ [run_dir_name]) := .inl hdir
    exact ⟨by simp [create_result_structure, h], hex, hdir, by simp [create_result_structure, hex]⟩

/-! ## Result persistence (`llm_runner.py`, `image_runner.py`) -/

/-- A chat message (`role`, `content`). -/
structure ChatMsg where
  role : String
  content : String

/-- One entry of the text prompt list; presence of the `prompt` /
`messages` / `options` keys is modelled by `Option` fields. -/
structure PromptDict where
  id : String
  prompt : Option String
  messages : Option (List ChatMsg)
  options : Option (Dict String JVal)

/-- One entry of the text model list. -/
structure ModelDict where
  name : String
  options : Option (Dict String JVal)

/-- Field access `j["output"]` on a JSON object (a `KeyError` in Python
when absent, `none` here). -/
def jGet (j : JVal) (k : String) : Option JVal :=
  match j with
  | .obj fields => dlookup fields k
  | _ => none

/-- The summary record built by `save_llm_summary` / `save_image_summary`
(`domain_key` is `"llm"` for the text driver, `"image"` for the image
driver). -/
def summaryJson (domain_key run_id created_at : String) (prompt_ids model_names : List String)
    (model_timings : Dict String ℚ) : JVal :=
  .obj [("run_id", .str run_id), ("created_at", .str created_at),
    (domain_key, .obj [
      ("prompt_count", .int prompt_ids.length),
      ("model_count", .int model_names.length),
      ("prompts", .arr (prompt_ids.map .str)),
      ("models", .arr (model_names.map .str)),
      ("model_timings", .obj (model_timings.map (fun kv => (kv.1, .rat kv.2))))])]

/-- `save_llm_summary` from `llm_runner.py`: requires the run directory
to exist, then writes `summary.json` with the llm-tagged summary. -/
def save_llm_summary (run_id run_dir_name created_at : String) (results_dir : FsPath)
    (prompts : List PromptDict) (models : List ModelDict) (model_timings : Dict String ℚ)
    (fs : FS) : Except PyErr Unit × FS :=
  let run_path := results_dir ++ [run_dir_name]
  let summary_path := run_path ++ ["summary.json"]
  if pathExists fs run_path then
    let prompt_ids := prompts.map (fun p => p.id)
    let model_names := models.map (fun m => m.name)
    (.ok (), write_file fs summary_path
      (.jsonFile (summaryJson "llm" run_id created_at prompt_ids model_names model_timings)))
  else
    (.error (.fileNotFoundError ("Run directory does not exist: " ++ pathToString run_path)), fs)

/-- `save_llm_result` from `llm_runner.py`: requires the run directory
to exist; creates `llm/<prompt_id>/` and its `markdown/` subdirectory on
demand, writes the JSON result file, then the markdown file holding
`result_data["output"]["text"]` (the JSON file is written before that
lookup can fail, as in the source). -/
def save_llm_result (run_dir_name : String) (results_dir : FsPath)
    (prompt_id model_name mode : String) (result_data : JVal) (fs : FS) :
    Except PyErr Unit × FS :=
  let run_path := results_dir ++ [run_dir_name]
  let prompt_path := run_path ++ ["llm", prompt_id]
  if pathExists fs run_path then
    let fs1 := mkdir_parents fs prompt_path
    let sanitized_model := sanitize_fs_name model_name
    let result_file := prompt_path ++ [sanitized_model ++ "__" ++ mode ++ ".json"]
    let fs2 := write_file fs1 result_file (.jsonFile result_data)
    let markdown_path := prompt_path ++ ["markdown"]
    let fs3 := mkdir_exist_ok fs2 markdown_path
    let markdown_file := markdown_path ++ [sanitized_model ++ "__" ++ mode ++ ".md"]
    match jGet result_data "output" with
    | some out =>
      match jGet out "text" with
      | some (.str text) => (.ok (), write_file fs3 markdown_file (.textFile text))
      | some _ => (.error (.keyError "output text is not a string"), fs3)
      | none => (.error (.keyError "text"), fs3)
    | none => (.error (.keyError "output"), fs3)
  else
    (.error (.fileNotFoundError ("Run directory does not exist: " ++ pathToString run_path)), fs)

/-- One entry of the image model list (`init_options` is checked for
presence by the driver, hence optional here). -/
structure ImageModelDict where
  name : String
  init_options : Option (Dict String JVal)
  generation_options : Option (Dict String JVal)

/-- One entry of the image prompt list (`mode` and `options` are
required by the loader and indexed directly by the driver). -/
structure ImagePromptDict where
  id : String
  mode : String
  options : Dict String JVal

/-- `save_image_summary` from `image_runner.py`: identical to
`save_llm_summary` except the summary is tagged `"image"`. -/
def save_image_summary (run_id run_dir_name created_at : String) (results_dir : FsPath)
    (prompts : List ImagePromptDict) (models : List ImageModelDict)
    (model_timings : Dict String ℚ) (fs : FS) : Except PyErr Unit × FS :=
  let run_path := results_dir ++ [run_dir_name]
  let summary_path := run_path ++ ["summary.json"]
  if pathExists fs run_path then
    let prompt_ids := prompts.map (fun p => p.id)
    let model_names := models.map (fun m => m.name)
    (.ok (), write_file fs summary_path
      (.jsonFile (summaryJson "image" run_id created_at prompt_ids model_names model_timings)))
  else
    (.error (.fileNotFoundError ("Run directory does not exist: " ++ pathToString run_path)), fs)

theorem mem_dirs_mkdir_exist_ok_self (fs : FS) (p : FsPath) :
    p ∈ (mkdir_exist_ok fs p).dirs := by
  by_cases h : p ∈ fs.dirs <;> simp [mkdir_exist_ok, h]

theorem mem_dirs_mkdir_exist_ok_of_mem (fs : FS) (p q : FsPath) (h : q ∈ fs.dirs) :
    q ∈ (mkdir_exist_ok fs p).dirs := by
  by_cases hp : p ∈ fs.dirs <;> simp [mkdir_exist_ok, hp, h]


/-- The filesystem produced by a successful `save_llm_result` call whose
`result_data` carries the output text `text`. -/
def llmResultFs (run_dir_name : String) (results_dir : FsPath)
    (prompt_id model_name mode : String) (result_data : JVal) (text : String) (fs : FS) : FS :=
  write_file
    (mkdir_exist_ok
      (write_file (mkdir_parents fs (results_dir ++ [run_dir_name] ++ ["llm", prompt_id]))
        (results_dir ++ [run_dir_name] ++ ["llm", prompt_id] ++
          [sanitize_fs_name model_name ++ "__" ++ mode ++ ".json"])
        (.jsonFile result_data))
      (results_dir ++ [run_dir_name] ++ ["llm", prompt_id] ++ ["markdown"]))
    (results_dir ++ [run_dir_name] ++ ["llm", prompt_id] ++ ["markdown"] ++
      [sanitize_fs_name model_name ++ "__" ++ mode ++ ".md"])
    (.textFile text)

/-- C7: with the run directory missing, `save_llm_result`,
`save_llm_summary` and `save_image_summary` raise a "not found" error
and leave the filesystem unchanged; with the run directory present,
`save_llm_result` creates `llm/<prompt_id>/` and its `markdown/`
subdirectory (directory creation being idempotent) and writes the JSON
result file and the markdown file. -/
theorem save_llm_result_spec_C7 (run_id run_dir_name created_at prompt_id model_name mode : String)
    (results_dir : FsPath) (result_data : JVal) (prompts : List PromptDict)
    (models : List ModelDict) (iprompts : List ImagePromptDict) (imodels : List ImageModelDict)
    (model_timings : Dict String ℚ) (fs : FS) :
    (¬ pathExists fs (results_dir ++ [run_dir_name]) →
      save_llm_result run_dir_name results_dir prompt_id model_name mode result_data fs =
        (.error (.fileNotFoundError ("Run directory does not exist: " ++
          pathToString (results_dir ++ [run_dir_name]))), fs) ∧
      save_llm_summary run_id run_dir_name created_at results_dir prompts models
          model_timings fs =
        (.error (.fileNotFoundError ("Run directory does not exist: " ++
          pathToString (results_dir ++ [run_dir_name]))), fs) ∧
      save_image_summary run_id run_dir_name created_at results_dir iprompts imodels
          model_timings fs =
        (.error (.fileNotFoundError ("Run directory does not exist: " ++
          pathToString (results_dir ++ [run_dir_name]))), fs)) ∧
    (∀ p, mkdir_parents (mkdir_parents fs p) p = mkdir_parents fs p) ∧
    (pathExists fs (results_dir ++ [run_dir_name]) →
      ∀ text, jGet result_data "output" = some (.obj [("text", .str text)]) →
      save_llm_result run_dir_name results_dir prompt_id model_name mode result_data fs =
        (.ok (), llmResultFs run_dir_name results_dir prompt_id model_name mode
          result_data text fs) ∧
      (results_dir ++ [run_dir_name] ++ ["llm", prompt_id]) ∈
        (llmResultFs run_dir_name results_dir prompt_id model_name mode
          result_data text fs).dirs ∧
      (results_dir ++ [run_dir_name] ++ ["llm", prompt_id] ++ ["markdown"]) ∈
        (llmResultFs run_dir_name results_dir prompt_id model_name mode
          result_data text fs).dirs ∧
      dlookup (llmResultFs run_dir_name results_dir prompt_id model_name mode
          result_data text fs).files
        (results_dir ++ [run_dir_name] ++ ["llm", prompt_id] ++
          [sanitize_fs_name model_name ++ "__" ++ mode ++ ".json"]) =
        some (.jsonFile result_data) ∧
      dlookup (llmResultFs run_dir_name results_dir prompt_id model_name mode
          result_data text fs).files
        (results_dir ++ [run_dir_name] ++ ["llm", prompt_id] ++ ["markdown"] ++
          [sanitize_fs_name model_name ++ "__" ++ mode ++ ".md"]) =
        some (.textFile text)) := by
  refine ⟨?_, fun p => mkdir_parents_idem fs p, ?_⟩
  · intro h
    exact ⟨by simp [save_llm_result, h], by simp [save_llm_summary, h],
      by simp [save_image_summary, h]⟩
  · intro h text htext
    have hout : jGet (JVal.obj [("text", JVal.str text)]) "text" = some (.str text) := by
      simp [jGet, dlookup]
    have h1 : (results_dir ++ [run_dir_name] ++ ["llm", prompt_id]) ∈
        (mkdir_parents fs (results_dir ++ [run_dir_name] ++ ["llm", prompt_id])).dirs :=
      (mem_dirs_mkdir_parents _ _ _).mpr (.inr (mem_initsNE_self _ (by simp)))
    have hne : ¬ ((results_dir ++ [run_dir_name] ++ ["llm", prompt_id] ++ ["markdown"] ++
          [sanitize_fs_name model_name ++ "__" ++ mode ++ ".md"]) =
        (results_dir ++ [run_dir_name] ++ ["llm", prompt_id] ++
          [sanitize_fs_name model_name ++ "__" ++ mode ++ ".json"])) := by
      intro hh
      have := congrArg List.length hh
      simp at this
    refine ⟨?_, ?_, ?_, ?_, ?_⟩
    · simp only [save_llm_result, llmResultFs, if_pos h, htext, hout]
    · exact mem_dirs_mkdir_exist_ok_of_mem _ _ _ h1
    · exact mem_dirs_mkdir_exist_ok_self _ _
    · simp [llmResultFs, write_file, mkdir_exist_ok, dlookup_pyInsert, hne]
    · simp [llmResultFs, write_file, dlookup_pyInsert]

/-! ## Evaluation drivers (`llm_runner.py`, `image_runner.py`)

The drivers are embedded as state-passing functions over a `Trace`
(filesystem plus the list of identifier draws and backend calls, most
recent first). The current time, the random suffix bytes, the wall
clock and the backends are inputs. -/

/-- External interactions of a run, recorded most recent first. -/
inductive Event where
  | genIdentifiers : Event
  | ollamaGenerate (model : String) (prompt : String) (options : Dict String JVal) : Event
  | ollamaChat (model : String) (messages : List ChatMsg) (options : Dict String JVal) : Event
  | sdInit (init_options : Dict String JVal) : Event
  | sdGenerate (options : Dict String JVal) : Event

/-- Filesystem plus recorded events. -/
structure Trace where
  fs : FS
  events : List Event

/-- Record an event. -/
def emit (tr : Trace) (e : Event) : Trace := { tr with events := e :: tr.events }

/-- The pre-validated configuration dictionary (only the fields the
drivers read). -/
structure Config where
  results_dir : FsPath
  llm_generation_defaults : Option (Dict String JVal)
  image_generation_defaults : Option (Dict String JVal)

/-- Environment of a text run: the instant and suffix bytes drawn by
`generate_run_identifiers`, the ollama backend, and `time.time()`. -/
structure LlmEnv where
  now : UtcTime
  b0 : Nat
  b1 : Nat
  b2 : Nat
  complete : String → String → Dict String JVal → OllamaGenerateResponse
  chat : String → List ChatMsg → Dict String JVal → OllamaChatResponse
  clock : Nat → ℚ

/-- JSON rendering of an optional string (absent becomes `null`). -/
def optStrJ : Option String → JVal
  | none => .null
  | some s => .str s

/-- JSON rendering of an optional token count. -/
def optNatJ : Option Nat → JVal
  | none => .null
  | some n => .int n

/-- JSON rendering of an optional duration or rate. -/
def optRatJ : Option ℚ → JVal
  | none => .null
  | some q => .rat q

/-- JSON rendering of the normalized metrics block. -/
def metricsJson (m : LlmMetrics) : JVal :=
  .obj [("done_reason", optStrJ m.done_reason),
    ("input_tokens", optNatJ m.input_tokens),
    ("output_tokens", optNatJ m.output_tokens),
    ("total_tokens", optNatJ m.total_tokens),
    ("load_seconds", optRatJ m.load_seconds),
    ("input_seconds", optRatJ m.input_seconds),
    ("output_seconds", optRatJ m.output_seconds),
    ("total_seconds", optRatJ m.total_seconds),
    ("output_tokens_per_second", optRatJ m.output_tokens_per_second)]

/-- The `result_data` dict literal built in the `run_llm_eval` loop. -/
def llmResultData (run_id created_at prompt_id model_name mode : String)
    (response : LlmResponse) : JVal :=
  .obj [("run_id", .str run_id), ("created_at", .str created_at),
    ("prompt_id", .str prompt_id), ("model", .str model_name), ("mode", .str mode),
    ("output", .obj [("text", .str response.output_text)]),
    ("metrics", metricsJson response.metrics)]

/-- Body of the inner prompt loop of `run_llm_eval`: filter by prompt
form, validate that one form is present, merge options, dispatch to the
completion or chat entry point, and persist the result. -/
def llm_prompt_step (env : LlmEnv) (results_dir : FsPath)
    (run_id run_dir_name created_at : String) (global_defaults : Option (Dict String JVal))
    (model_name : String) (model_options : Option (Dict String JVal))
    (prompt_filter : String) (tr : Trace) (prompt_dict : PromptDict) : Except PyErr Trace :=
  let prompt_id := prompt_dict.id
  let prompt_options := prompt_dict.options
  let is_completion_prompt := prompt_dict.prompt.isSome
  let is_chat_prompt := prompt_dict.messages.isSome
  if prompt_filter = "completion" ∧ is_completion_prompt = false then .ok tr
  else if prompt_filter = "chat" ∧ is_chat_prompt = false then .ok tr
  else
    match prompt_dict.prompt, prompt_dict.messages with
    | none, none =>
      .error (.valueError ("Prompt " ++ prompt_id ++
        " must have either prompt or messages field"))
    | some prompt_text, _ =>
      let options := merge_options global_defaults model_options prompt_options
      let response := generate_response_completion (env.complete model_name prompt_text options)
      let tr1 := emit tr (.ollamaGenerate model_name prompt_text options)
      let result_data := llmResultData run_id created_at prompt_id model_name "completion" response
      match save_llm_result run_dir_name results_dir prompt_id model_name "completion"
          result_data tr1.fs with
      | (.error e, _) => .error e
      | (.ok _, fsx) => .ok { tr1 with fs := fsx }
    | none, some messages =>
      let options := merge_options global_defaults model_options prompt_options
      let response := generate_response_chat (env.chat model_name messages options)
      let tr1 := emit tr (.ollamaChat model_name messages options)
      let result_data := llmResultData run_id created_at prompt_id model_name "chat" response
      match save_llm_result run_dir_name results_dir prompt_id model_name "chat"
          result_data tr1.fs with
      | (.error e, _) => .error e
      | (.ok _, fsx) => .ok { tr1 with fs := fsx }

/-- The inner prompt loop of `run_llm_eval`. -/
def llm_prompt_loop (env : LlmEnv) (results_dir : FsPath)
    (run_id run_dir_name created_at : String) (global_defaults : Option (Dict String JVal))
    (model_name : String) (model_options : Option (Dict String JVal))
    (prompt_filter : String) (tr : Trace) : List PromptDict → Except PyErr Trace
  | [] => .ok tr
  | prompt_dict :: rest =>
    match llm_prompt_step env results_dir run_id run_dir_name created_at global_defaults
        model_name model_options prompt_filter tr prompt_dict with
    | .error e => .error e
    | .ok tr1 => llm_prompt_loop env results_dir run_id run_dir_name created_at
        global_defaults model_name model_options prompt_filter tr1 rest

/-- The outer model loop of `run_llm_eval`, with per-model wall-clock
timing. -/
def llm_model_loop (env : LlmEnv) (results_dir : FsPath)
    (run_id run_dir_name created_at : String) (global_defaults : Option (Dict String JVal))
    (prompt_filter : String) (prompts : List PromptDict) (tr : Trace)
    (model_timings : Dict String ℚ) (tick : Nat) :
    List ModelDict → Except PyErr (Trace × Dict String ℚ)
  | [] => .ok (tr, model_timings)
  | model_dict :: rest =>
    let start_time := env.clock tick
    match llm_prompt_loop env results_dir run_id run_dir_name created_at global_defaults
        model_dict.name model_dict.options prompt_filter tr prompts with
    | .error e => .error e
    | .ok tr1 =>
      let elapsed := round3 (env.clock (tick + 1) - start_time)
      llm_model_loop env results_dir run_id run_dir_name created_at global_defaults
        prompt_filter prompts tr1 (pyInsert model_timings model_dict.name elapsed)
        (tick + 2) rest

/-- `run_llm_eval` from `llm_runner.py`: validate the filter, draw run
identifiers, create the run directory, run every model over every
prompt, and write the summary. -/
def run_llm_eval (env : LlmEnv) (config : Config) (prompts : List PromptDict)
    (models : List ModelDict) (prompt_filter : String) (fs0 : FS) :
    Except PyErr String × Trace :=
  let tr0 : Trace := ⟨fs0, []⟩
  if ¬ (prompt_filter = "completion" ∨ prompt_filter = "chat" ∨ prompt_filter = "all") then
    (.error (.valueError ("Invalid prompt_filter: " ++ prompt_filter ++
      ". Must be completion, chat, or all")), tr0)
  else
    match generate_run_identifiers env.now env.b0 env.b1 env.b2 with
    | (run_id, run_dir_name, created_at) =>
      let tr1 := emit tr0 .genIdentifiers
      let results_dir := config.results_dir
      match create_result_structure run_dir_name results_dir tr1.fs with
      | (.error e, fs1) => (.error e, { tr1 with fs := fs1 })
      | (.ok _run_path, fs1) =>
        let tr2 := { tr1 with fs := fs1 }
        let global_defaults := config.llm_generation_defaults
        match llm_model_loop env results_dir run_id run_dir_name created_at global_defaults
            prompt_filter prompts tr2 [] 0 models with
        | .error e => (.error e, tr2)
        | .ok (tr3, model_timings) =>
          match save_llm_summary run_id run_dir_name created_at results_dir prompts
              models model_timings tr3.fs with
          | (.error e, fs4) => (.error e, { tr3 with fs := fs4 })
          | (.ok _, fs4) => (.ok run_id, { tr3 with fs := fs4 })

/-- Environment of an image run: instant, suffix bytes, the
stable-diffusion backend (a function of the construction options and
the generation options), and the wall clock. -/
structure ImageEnv where
  now : UtcTime
  b0 : Nat
  b1 : Nat
  b2 : Nat
  sd_generate : Dict String JVal → Dict String JVal → List Nat
  clock : Nat → ℚ

/-- The source function initialize_stable_diffusion from
`image_runner.py`: check that `init_options` is present and construct
the backend from exactly those options (the handle is modelled by the
construction options themselves). -/
def init_stable_diffusion (model_config : ImageModelDict) : Except PyErr (Dict String JVal) :=
  match model_config.init_options with
  | none => .error (.valueError ("Model " ++ model_config.name ++
      " missing init_options field"))
  | some init_options => .ok init_options

/-- The keyword-argument dict built inside `generate_image`:
`params = dict(options); params.update(prompt_config["options"])`. -/
def generate_image_params (options : Dict String JVal)
    (prompt_options : Dict String JVal) : Dict String JVal :=
  pyUpdate options prompt_options

/-- `generate_image` from `image_runner.py`: a pass-through call of the
backend on the rebuilt keyword-argument dict. -/
def generate_image (env : ImageEnv) (sd : Dict String JVal)
    (prompt_config : ImagePromptDict) (options : Dict String JVal) : List Nat :=
  env.sd_generate sd (generate_image_params options prompt_config.options)

/-- The metadata dict literal written per generated image in
`run_image_eval`. -/
def imageMetadata (run_id created_at prompt_mode model_name prompt_id : String)
    (merged_options : Dict String JVal) : JVal :=
  .obj [("run_id", .str run_id), ("created_at", .str created_at),
    ("mode", .str prompt_mode), ("model", .obj [("name", .str model_name)]),
    ("prompt", .obj [("id", .str prompt_id)]),
    ("generation_options", .obj merged_options)]

/-- The per-image save loop of `run_image_eval`: one PNG and one
metadata JSON per image, indexed from `i` in generation order. -/
def save_generated_images (prompt_dir prompt_json_dir : FsPath)
    (sanitized_model_name : String) (metadata : JVal) (i : Nat) (fs : FS) :
    List Nat → FS
  | [] => fs
  | img :: rest =>
    let img_path := prompt_dir ++ [sanitized_model_name ++ "_" ++ toString i ++ ".png"]
    let fs1 := write_file fs img_path (.pngFile img)
    let json_path := prompt_json_dir ++ [sanitized_model_name ++ "_" ++ toString i ++ ".json"]
    let fs2 := write_file fs1 json_path (.jsonFile metadata)
    save_generated_images prompt_dir prompt_json_dir sanitized_model_name metadata
      (i + 1) fs2 rest

/-- Body of the inner prompt loop of `run_image_eval`: filter by mode,
create the prompt directories, merge the three option layers, generate
the batch, and persist every image with its metadata. -/
def image_prompt_step (env : ImageEnv) (run_id created_at : String) (run_path : FsPath)
    (global_defaults : Option (Dict String JVal)) (model : ImageModelDict)
    (sd : Dict String JVal) (mode_filter : String) (tr : Trace)
    (prompt : ImagePromptDict) : Trace :=
  let prompt_id := prompt.id
  let prompt_mode := prompt.mode
  if mode_filter ≠ "all" ∧ prompt_mode ≠ mode_filter then tr
  else
    let prompt_dir := run_path ++ ["image", prompt_id]
    let prompt_json_dir := prompt_dir ++ ["json"]
    let fs1 := mkdir_parents tr.fs prompt_dir
    let fs2 := mkdir_parents fs1 prompt_json_dir
    let merged_options := merge_image_options global_defaults model.generation_options
      (some prompt.options)
    let images := generate_image env sd prompt merged_options
    let tr1 : Trace :=
      ⟨fs2, Event.sdGenerate (generate_image_params merged_options prompt.options) :: tr.events⟩
    let sanitized_model_name := sanitize_fs_name model.name
    let metadata := imageMetadata run_id created_at prompt_mode model.name prompt_id
      merged_options
    ⟨save_generated_images prompt_dir prompt_json_dir sanitized_model_name metadata 0
      tr1.fs images, tr1.events⟩

/-- The inner prompt loop of `run_image_eval`. -/
def image_prompt_loop (env : ImageEnv) (run_id created_at : String) (run_path : FsPath)
    (global_defaults : Option (Dict String JVal)) (model : ImageModelDict)
    (sd : Dict String JVal) (mode_filter : String) (tr : Trace) :
    List ImagePromptDict → Trace
  | [] => tr
  | prompt :: rest =>
    image_prompt_loop env run_id created_at run_path global_defaults model sd mode_filter
      (image_prompt_step env run_id created_at run_path global_defaults model sd
        mode_filter tr prompt) rest

/-- The outer model loop of `run_image_eval`: per-model backend
construction, prompt loop and timing. -/
def image_model_loop (env : ImageEnv) (run_id created_at : String) (run_path : FsPath)
    (global_defaults : Option (Dict String JVal)) (mode_filter : String)
    (prompts : List ImagePromptDict) (tr : Trace) (model_timings : Dict String ℚ)
    (tick : Nat) : List ImageModelDict → Except PyErr (Trace × Dict String ℚ)
  | [] => .ok (tr, model_timings)
  | model :: rest =>
    let start_time := env.clock tick
    match init_stable_diffusion model with
    | .error e => .error e
    | .ok sd =>
      let tr0 := emit tr (.sdInit sd)
      let tr1 := image_prompt_loop env run_id created_at run_path global_defaults model sd
        mode_filter tr0 prompts
      let elapsed := round3 (env.clock (tick + 1) - start_time)
      image_model_loop env run_id created_at run_path global_defaults mode_filter prompts
        tr1 (pyInsert model_timings model.name elapsed) (tick + 2) rest

/-- `run_image_eval` from `image_runner.py`. -/
def run_image_eval (env : ImageEnv) (config : Config) (prompts : List ImagePromptDict)
    (models : List ImageModelDict) (mode_filter : String) (fs0 : FS) :
    Except PyErr String × Trace :=
  let tr0 : Trace := ⟨fs0, []⟩
  if ¬ (mode_filter = "txt2img" ∨ mode_filter = "img2img" ∨ mode_filter = "all") then
    (.error (.valueError ("Invalid mode_filter: " ++ mode_filter ++
      ". Must be txt2img, img2img, or all")), tr0)
  else
    match generate_run_identifiers env.now env.b0 env.b1 env.b2 with
    | (run_id, run_dir_name, created_at) =>
      let tr1 := emit tr0 .genIdentifiers
      let results_dir := config.results_dir
      match create_result_structure run_dir_name results_dir tr1.fs with
      | (.error e, fs1) => (.error e, { tr1 with fs := fs1 })
      | (.ok run_path, fs1) =>
        let tr2 := { tr1 with fs := fs1 }
        let global_defaults := config.image_generation_defaults
        match image_model_loop env run_id created_at run_path global_defaults mode_filter
            prompts tr2 [] 0 models with
        | .error e => (.error e, tr2)
        | .ok (tr3, model_timings) =>
          match save_image_summary run_id run_dir_name created_at results_dir prompts
              models model_timings tr3.fs with
          | (.error e, fs4) => (.error e, { tr3 with fs := fs4 })
          | (.ok _, fs4) => (.ok run_id, { tr3 with fs := fs4 })

/-- A text-run environment with inert collaborators, for concrete runs. -/
def trivialLlmEnv : LlmEnv :=
  { now := ⟨2026, 1, 1, 0, 0, 0⟩, b0 := 0, b1 := 0, b2 := 0,
    complete := fun _ _ _ => ⟨"", none, none, none, none, none, none, none⟩,
    chat := fun _ _ _ => ⟨⟨""⟩, none, none, none, none, none, none, none⟩,
    clock := fun _ => 0 }

/-- An image-run environment with inert collaborators. -/
def trivialImageEnv : ImageEnv :=
  { now := ⟨2026, 1, 1, 0, 0, 0⟩, b0 := 0, b1 := 0, b2 := 0,
    sd_generate := fun _ _ => [], clock := fun _ => 0 }

/-- An empty filesystem. -/
def emptyFS : FS := ⟨[], []⟩

/-- A minimal configuration. -/
def trivialConfig : Config := ⟨["results"], none, none⟩

/-- C4: a filter value outside the allowed set makes each driver raise a
configuration error before any side effect: the returned trace has the
initial filesystem and no recorded event, so no run identifiers were
drawn, no directory was created and no backend was contacted. -/
theorem run_eval_invalid_filter_C4 (env : LlmEnv) (ienv : ImageEnv) (config : Config)
    (prompts : List PromptDict) (models : List ModelDict)
    (iprompts : List ImagePromptDict) (imodels : List ImageModelDict)
    (f g : String) (fs0 : FS)
    (hf1 : f ≠ "completion") (hf2 : f ≠ "chat") (hf3 : f ≠ "all")
    (hg1 : g ≠ "txt2img") (hg2 : g ≠ "img2img") (hg3 : g ≠ "all") :
    run_llm_eval env config prompts models f fs0 =
      (.error (.valueError ("Invalid prompt_filter: " ++ f ++
        ". Must be completion, chat, or all")), ⟨fs0, []⟩) ∧
    run_image_eval ienv config iprompts imodels g fs0 =
      (.error (.valueError ("Invalid mode_filter: " ++ g ++
        ". Must be txt2img, img2img, or all")), ⟨fs0, []⟩) := by
  constructor
  · simp [run_llm_eval, hf1, hf2, hf3]
  · simp [run_image_eval, hg1, hg2, hg3]

/-- Witness for C4: the filter value `"both"` is rejected by both
drivers with the untouched initial state. -/
theorem run_eval_invalid_filter_C4_witness :
    run_llm_eval trivialLlmEnv trivialConfig [] [] "both" emptyFS =
      (.error (.valueError ("Invalid prompt_filter: " ++ "both" ++
        ". Must be completion, chat, or all")), ⟨emptyFS, []⟩) ∧
    run_image_eval trivialImageEnv trivialConfig [] [] "both" emptyFS =
      (.error (.valueError ("Invalid mode_filter: " ++ "both" ++
        ". Must be txt2img, img2img, or all")), ⟨emptyFS, []⟩) :=
  run_eval_invalid_filter_C4 trivialLlmEnv trivialImageEnv trivialConfig [] [] [] []
    "both" "both" emptyFS (by decide) (by decide) (by decide) (by decide) (by decide)
    (by decide)

/-! ## The malformed-prompt path of `run_llm_eval` -/

theorem jGet_llmResultData_output (run_id created_at prompt_id model_name mode : String)
    (response : LlmResponse) :
    jGet (llmResultData run_id created_at prompt_id model_name mode response) "output" =
      some (.obj [("text", .str response.output_text)]) := by
  simp [llmResultData, jGet, dlookup]

theorem mem_dkeys_pyInsert {K V : Type} [DecidableEq K] (d : Dict K V) (k q : K) (v : V)
    (h : q ∈ dkeys d) : q ∈ dkeys (pyInsert d k v) := by
  induction d with
  | nil => simp [dkeys] at h
  | cons hd tl ih =>
    obtain ⟨k0, v0⟩ := hd
    by_cases h0 : k0 = k
    · subst h0
      simp only [dkeys, List.map_cons, List.mem_cons] at h
      simp [pyInsert, dkeys]
      rcases h with h | h
      · exact .inl h
      · obtain ⟨⟨a, b⟩, hab, hfst⟩ := List.mem_map.mp h
        have ha : a = q := hfst
        exact .inr ⟨b, ha ▸ hab⟩
    · simp only [dkeys, List.map_cons, List.mem_cons] at h
      simp only [pyInsert, if_neg h0, dkeys, List.map_cons, List.mem_cons]
      rcases h with h | h
      · exact .inl h
      · exact .inr (ih h)

theorem pathExists_write_file (fs : FS) (p q : FsPath) (d : FileData)
    (h : pathExists fs q) : pathExists (write_file fs p d) q := by
  rcases h with h | h
  · exact .inl h
  · exact .inr (mem_dkeys_pyInsert fs.files p q d h)

theorem pathExists_mkdir_parents (fs : FS) (p q : FsPath)
    (h : pathExists fs q) : pathExists (mkdir_parents fs p) q := by
  rcases h with h | h
  · exact .inl ((mem_dirs_mkdir_parents fs p q).mpr (.inl h))
  · exact .inr h

theorem pathExists_mkdir_exist_ok (fs : FS) (p q : FsPath)
    (h : pathExists fs q) : pathExists (mkdir_exist_ok fs p) q := by
  rcases h with h | h
  · exact .inl (mem_dirs_mkdir_exist_ok_of_mem fs p q h)
  · exact .inr h

theorem pathExists_llmResultFs (run_dir_name : String) (results_dir : FsPath)
    (prompt_id model_name mode : String) (result_data : JVal) (text : String)
    (fs : FS) (q : FsPath) (h : pathExists fs q) :
    pathExists (llmResultFs run_dir_name results_dir prompt_id model_name mode
      result_data text fs) q :=
  pathExists_write_file _ _ _ _
    (pathExists_mkdir_exist_ok _ _ _
      (pathExists_write_file _ _ _ _
        (pathExists_mkdir_parents _ _ _ h)))

theorem save_llm_result_ok_helper (run_dir_name : String) (results_dir : FsPath)
    (prompt_id model_name mode : String) (result_data : JVal) (text : String) (fs : FS)
    (hex : pathExists fs (results_dir ++ [run_dir_name]))
    (hout : jGet result_data "output" = some (.obj [("text", .str text)])) :
    save_llm_result run_dir_name results_dir prompt_id model_name mode result_data fs =
      (.ok (), llmResultFs run_dir_name results_dir prompt_id model_name mode
        result_data text fs) := by
  simp only [save_llm_result, llmResultFs, if_pos hex, hout]
  simp [jGet, dlookup]

theorem llm_prompt_step_all_malformed (env : LlmEnv) (results_dir : FsPath)
    (run_id run_dir_name created_at model_name : String)
    (gd mo : Option (Dict String JVal)) (tr : Trace) (pd : PromptDict)
    (hp : pd.prompt = none) (hm : pd.messages = none) :
    llm_prompt_step env results_dir run_id run_dir_name created_at gd model_name mo
      "all" tr pd =
      .error (.valueError ("Prompt " ++ pd.id ++
        " must have either prompt or messages field")) := by
  simp [llm_prompt_step, hp, hm]

theorem llm_prompt_step_all_ok (env : LlmEnv) (results_dir : FsPath)
    (run_id run_dir_name created_at model_name : String)
    (gd mo : Option (Dict String JVal)) (tr : Trace) (pd : PromptDict)
    (hex : pathExists tr.fs (results_dir ++ [run_dir_name]))
    (hwf : pd.prompt.isSome ∨ pd.messages.isSome) :
    ∃ tr1, llm_prompt_step env results_dir run_id run_dir_name created_at gd model_name mo
        "all" tr pd = .ok tr1 ∧
      pathExists tr1.fs (results_dir ++ [run_dir_name]) := by
  cases hp : pd.prompt with
  | some prompt_text =>
    have hsave := save_llm_result_ok_helper run_dir_name results_dir pd.id model_name
      "completion"
      (llmResultData run_id created_at pd.id model_name "completion"
        (generate_response_completion (env.complete model_name prompt_text
          (merge_options gd mo pd.options))))
      (generate_response_completion (env.complete model_name prompt_text
        (merge_options gd mo pd.options))).output_text
      tr.fs hex (jGet_llmResultData_output _ _ _ _ _ _)
    refine ⟨⟨llmResultFs run_dir_name results_dir pd.id model_name "completion"
        (llmResultData run_id created_at pd.id model_name "completion"
          (generate_response_completion (env.complete model_name prompt_text
            (merge_options gd mo pd.options))))
        (generate_response_completion (env.complete model_name prompt_text
          (merge_options gd mo pd.options))).output_text tr.fs,
      Event.ollamaGenerate model_name prompt_text (merge_options gd mo pd.options)
        :: tr.events⟩, ?_, ?_⟩
    · simp only [llm_prompt_step, hp]
      rw [if_neg (by simp), if_neg (by simp)]
      simp only [emit]
      rw [hsave]
    · exact pathExists_llmResultFs _ _ _ _ _ _ _ _ _ hex
  | none =>
    cases hm : pd.messages with
    | none =>
      rw [hp] at hwf
      rw [hm] at hwf
      simp at hwf
    | some messages =>
      have hsave := save_llm_result_ok_helper run_dir_name results_dir pd.id model_name
        "chat"
        (llmResultData run_id created_at pd.id model_name "chat"
          (generate_response_chat (env.chat model_name messages
            (merge_options gd mo pd.options))))
        (generate_response_chat (env.chat model_name messages
          (merge_options gd mo pd.options))).output_text
        tr.fs hex (jGet_llmResultData_output _ _ _ _ _ _)
      refine ⟨⟨llmResultFs run_dir_name results_dir pd.id model_name "chat"
          (llmResultData run_id created_at pd.id model_name "chat"
            (generate_response_chat (env.chat model_name messages
              (merge_options gd mo pd.options))))
          (generate_response_chat (env.chat model_name messages
            (merge_options gd mo pd.options))).output_text tr.fs,
        Event.ollamaChat model_name messages (merge_options gd mo pd.options)
          :: tr.events⟩, ?_, ?_⟩
      · simp only [llm_prompt_step, hp, hm]
        rw [if_neg (by simp), if_neg (by simp)]
        simp only [emit]
        rw [hsave]
      · exact pathExists_llmResultFs _ _ _ _ _ _ _ _ _ hex

theorem llm_prompt_loop_all_error (env : LlmEnv) (results_dir : FsPath)
    (run_id run_dir_name created_at model_name : String)
    (gd mo : Option (Dict String JVal)) (prompts : List PromptDict) (tr : Trace)
    (hex : pathExists tr.fs (results_dir ++ [run_dir_name]))
    (hmal : ∃ pd ∈ prompts, pd.prompt = none ∧ pd.messages = none) :
    ∃ msg, llm_prompt_loop env results_dir run_id run_dir_name created_at gd model_name
      mo "all" tr prompts = .error (.valueError msg) := by
  induction prompts generalizing tr with
  | nil => simp at hmal
  | cons pd rest ih =>
    by_cases hpdmal : pd.prompt = none ∧ pd.messages = none
    · refine ⟨"Prompt " ++ pd.id ++ " must have either prompt or messages field", ?_⟩
      simp only [llm_prompt_loop]
      rw [llm_prompt_step_all_malformed env results_dir run_id run_dir_name created_at
        model_name gd mo tr pd hpdmal.1 hpdmal.2]
    · have hwf : pd.prompt.isSome ∨ pd.messages.isSome := by
        cases hp : pd.prompt with
        | some t => simp
        | none =>
          cases hm : pd.messages with
          | some m => simp
          | none => exact absurd ⟨hp, hm⟩ hpdmal
      obtain ⟨tr1, hok, hex1⟩ := llm_prompt_step_all_ok env results_dir run_id
        run_dir_name created_at model_name gd mo tr pd hex hwf
      have hmal1 : ∃ pd0 ∈ rest, pd0.prompt = none ∧ pd0.messages = none := by
        rcases hmal with ⟨pd0, hpd0, hmal0⟩
        rcases List.mem_cons.mp hpd0 with h | h
        · exact absurd (h ▸ hmal0) hpdmal
        · exact ⟨pd0, h, hmal0⟩
      obtain ⟨msg, hmsg⟩ := ih tr1 hex1 hmal1
      refine ⟨msg, ?_⟩
      simp only [llm_prompt_loop]
      rw [hok]
      exact hmsg

/-- Whether an `Except` result is a success. -/
def exceptIsOk {ε α : Type} : Except ε α → Bool
  | .ok _ => true
  | .error _ => false

/-- Counterexample to C3 as stated: with the valid filter
`"completion"` and a prompt carrying neither a `prompt` nor a
`messages` field, the run completes without error — the filter skips
the malformed prompt before the validation that would reject it. -/
theorem run_llm_eval_malformed_C3_counterexample :
    exceptIsOk (run_llm_eval trivialLlmEnv trivialConfig
      [{ id := "p1", prompt := none, messages := none, options := none }]
      [{ name := "m1", options := none }] "completion" emptyFS).1 = true := by
  rfl

/-- C3 (amended): a prompt with neither a `prompt` nor a `messages`
field is a fatal error at the point of use only under
`prompt_filter = "all"`; under `"completion"` or `"chat"` the structural
filter skips such a prompt before the validation, and the step leaves
the state untouched. -/
theorem run_llm_eval_malformed_C3 (env : LlmEnv) (config : Config)
    (prompts : List PromptDict) (models : List ModelDict) (fs0 : FS) (tr : Trace)
    (pd : PromptDict) (results_dir : FsPath)
    (run_id run_dir_name created_at model_name : String)
    (gd mo : Option (Dict String JVal))
    (hp : pd.prompt = none) (hm : pd.messages = none)
    (hmod : models ≠ [])
    (hmem : ∃ pd0 ∈ prompts, pd0.prompt = none ∧ pd0.messages = none)
    (hfresh : ¬ pathExists fs0 (config.results_dir ++
      [(generate_run_identifiers env.now env.b0 env.b1 env.b2).2.1])) :
    llm_prompt_step env results_dir run_id run_dir_name created_at gd model_name mo
      "completion" tr pd = .ok tr ∧
    llm_prompt_step env results_dir run_id run_dir_name created_at gd model_name mo
      "chat" tr pd = .ok tr ∧
    ∃ msg, (run_llm_eval env config prompts models "all" fs0).1 =
      .error (.valueError msg) := by
  refine ⟨by simp [llm_prompt_step, hp, hm], by simp [llm_prompt_step, hp, hm], ?_⟩
  rcases hr : generate_run_identifiers env.now env.b0 env.b1 env.b2 with
    ⟨run_id0, run_dir_name0, created_at0⟩
  rw [hr] at hfresh
  simp only at hfresh
  cases models with
  | nil => exact absurd rfl hmod
  | cons md mrest =>
    have hcreate : create_result_structure run_dir_name0 config.results_dir fs0 =
        (.ok (config.results_dir ++ [run_dir_name0]),
          mkdir_parents fs0 (config.results_dir ++ [run_dir_name0])) := by
      simp [create_result_structure, hfresh]
    have hex1 : pathExists (mkdir_parents fs0 (config.results_dir ++ [run_dir_name0]))
        (config.results_dir ++ [run_dir_name0]) :=
      .inl ((mem_dirs_mkdir_parents _ _ _).mpr (.inr (mem_initsNE_self _ (by simp))))
    obtain ⟨msg, hmsg⟩ := llm_prompt_loop_all_error env config.results_dir run_id0
      run_dir_name0 created_at0 md.name config.llm_generation_defaults md.options prompts
      ⟨mkdir_parents fs0 (config.results_dir ++ [run_dir_name0]), [Event.genIdentifiers]⟩
      hex1 hmem
    refine ⟨msg, ?_⟩
    simp only [run_llm_eval]
    rw [if_neg (by simp)]
    rw [hr]
    simp only [emit]
    rw [hcreate]
    simp only [llm_model_loop]
    rw [hmsg]

/-- Witness for the amended C3 at a concrete malformed prompt. -/
theorem run_llm_eval_malformed_C3_witness :
    llm_prompt_step trivialLlmEnv ["results"] "r" "d" "c" none "m1" none
      "completion" ⟨emptyFS, []⟩ ⟨"p1", none, none, none⟩ = .ok ⟨emptyFS, []⟩ ∧
    llm_prompt_step trivialLlmEnv ["results"] "r" "d" "c" none "m1" none
      "chat" ⟨emptyFS, []⟩ ⟨"p1", none, none, none⟩ = .ok ⟨emptyFS, []⟩ ∧
    ∃ msg, (run_llm_eval trivialLlmEnv trivialConfig
      [⟨"p1", none, none, none⟩] [⟨"m1", none⟩] "all" emptyFS).1 =
      .error (.valueError msg) :=
  run_llm_eval_malformed_C3 trivialLlmEnv trivialConfig
    [⟨"p1", none, none, none⟩] [⟨"m1", none⟩] emptyFS ⟨emptyFS, []⟩
    ⟨"p1", none, none, none⟩ ["results"] "r" "d" "c" "m1" none none
    rfl rfl (by simp) ⟨⟨"p1", none, none, none⟩, by simp, rfl, rfl⟩ (by decide)

/-! ## Pass-through of merged options in the image driver -/

theorem pyInsert_cons {K V : Type} [DecidableEq K] (k0 k : K) (v0 v : V) (rest : Dict K V) :
    pyInsert ((k0, v0) :: rest) k v =
      if k0 = k then (k, v) :: rest else (k0, v0) :: pyInsert rest k v := rfl

theorem mem_dkeys_pyInsert_iff {K V : Type} [DecidableEq K] (d : Dict K V) (k q : K) (v : V) :
    q ∈ dkeys (pyInsert d k v) ↔ q ∈ dkeys d ∨ q = k := by
  induction d with
  | nil => simp [pyInsert, dkeys]
  | cons hd tl ih =>
    obtain ⟨k0, v0⟩ := hd
    by_cases h0 : k0 = k
    · subst h0
      rw [pyInsert_cons, if_pos rfl]
      show q ∈ k0 :: dkeys tl ↔ q ∈ k0 :: dkeys tl ∨ q = k0
      constructor
      · exact fun h => .inl h
      · rintro (h | h)
        · exact h
        · exact h ▸ List.mem_cons_self _ _
    · rw [pyInsert_cons, if_neg h0]
      show q ∈ k0 :: dkeys (pyInsert tl k v) ↔ q ∈ k0 :: dkeys tl ∨ q = k
      rw [List.mem_cons, List.mem_cons, ih]
      tauto

theorem nodupKeys_pyInsert {K V : Type} [DecidableEq K] (d : Dict K V) (k : K) (v : V)
    (h : NodupKeys d) : NodupKeys (pyInsert d k v) := by
  induction d with
  | nil => simp [pyInsert, NodupKeys, dkeys]
  | cons hd tl ih =>
    obtain ⟨k0, v0⟩ := hd
    have h0 : (k0 :: dkeys tl).Nodup := h
    have htl : NodupKeys tl := (List.nodup_cons.mp h0).2
    have hnot : k0 ∉ dkeys tl := (List.nodup_cons.mp h0).1
    by_cases hk : k0 = k
    · subst hk
      rw [pyInsert_cons, if_pos rfl]
      exact h0
    · rw [pyInsert_cons, if_neg hk]
      show (k0 :: dkeys (pyInsert tl k v)).Nodup
      rw [List.nodup_cons]
      refine ⟨?_, ih htl⟩
      rw [mem_dkeys_pyInsert_iff]
      rintro (hc | hc)
      · exact hnot hc
      · exact hk hc

theorem nodupKeys_pyUpdate {K V : Type} [DecidableEq K] (d e : Dict K V)
    (h : NodupKeys d) : NodupKeys (pyUpdate d e) := by
  induction e generalizing d with
  | nil => exact h
  | cons kv rest ih =>
    have step : pyUpdate d (kv :: rest) = pyUpdate (pyInsert d kv.1 kv.2) rest := by
      simp [pyUpdate]
    rw [step]
    exact ih _ (nodupKeys_pyInsert d kv.1 kv.2 h)

theorem nodupKeys_merge_options {V : Type} (g m p : Option (Dict String V)) :
    NodupKeys (merge_options g m p) := by
  have step : ∀ (d : Dict String V) (o : Option (Dict String V)), NodupKeys d →
      NodupKeys (if dictTruthy o then pyUpdate d (o.getD []) else d) := by
    intro d o hd
    split
    · exact nodupKeys_pyUpdate _ _ hd
    · exact hd
  exact step _ p (step _ m (step _ g List.nodup_nil))

theorem dlookup_of_mem_nodup {K V : Type} [DecidableEq K] (e : Dict K V) (k : K) (v : V)
    (he : NodupKeys e) (hkv : (k, v) ∈ e) : dlookup e k = some v := by
  induction e with
  | nil => simp at hkv
  | cons hd tl ih =>
    obtain ⟨k0, v0⟩ := hd
    have h0 : (k0 :: dkeys tl).Nodup := he
    have htl : NodupKeys tl := (List.nodup_cons.mp h0).2
    have hnot : k0 ∉ dkeys tl := (List.nodup_cons.mp h0).1
    rcases List.mem_cons.mp hkv with h | h
    · have hk : k = k0 := congrArg Prod.fst h
      have hv : v = v0 := congrArg Prod.snd h
      subst hk
      subst hv
      simp [dlookup]
    · have hk0 : k0 ≠ k := by
        intro hc
        subst hc
        exact hnot (List.mem_map.mpr ⟨(k0, v), h, rfl⟩)
      simpa [dlookup, hk0] using ih htl h

theorem pyInsert_eq_self {K V : Type} [DecidableEq K] (d : Dict K V) (k : K) (v : V)
    (hd : NodupKeys d) (hv : dlookup d k = some v) : pyInsert d k v = d := by
  induction d with
  | nil => simp [dlookup] at hv
  | cons hd0 tl ih =>
    obtain ⟨k0, v0⟩ := hd0
    have h0 : (k0 :: dkeys tl).Nodup := hd
    have htl : NodupKeys tl := (List.nodup_cons.mp h0).2
    by_cases hk : k0 = k
    · subst hk
      have hvv : v0 = v := by simpa [dlookup] using hv
      subst hvv
      rw [pyInsert_cons, if_pos rfl]
    · have hv2 : dlookup tl k = some v := by simpa [dlookup, hk] using hv
      rw [pyInsert_cons, if_neg hk, ih htl hv2]

theorem pyUpdate_eq_self {K V : Type} [DecidableEq K] (d e : Dict K V)
    (hd : NodupKeys d) (h : ∀ k v, (k, v) ∈ e → dlookup d k = some v) :
    pyUpdate d e = d := by
  induction e with
  | nil => rfl
  | cons kv rest ih =>
    obtain ⟨k, v⟩ := kv
    have step : pyUpdate d ((k, v) :: rest) = pyUpdate (pyInsert d k v) rest := by
      simp [pyUpdate]
    rw [step, pyInsert_eq_self d k v hd (h k v (List.mem_cons_self _ _))]
    exact ih (fun k0 v0 hm => h k0 v0 (List.mem_cons_of_mem _ hm))

/-- C6: the keyword-argument map rebuilt inside `generate_image`
(a copy of the merged map overlaid once more with the prompt options)
equals `merge_image_options(g, m, p)`; the same merged map is the value
recorded under `generation_options` in each image's metadata, and the
options the driver loop passes to the backend are exactly that merged
map. -/
theorem generate_image_passthrough_C6 (gd mopts : Option (Dict String JVal))
    (popts : Dict String JVal)
    (hg : NodupKeys (gd.getD [])) (hm : NodupKeys (mopts.getD []))
    (hp : NodupKeys popts) :
    generate_image_params (merge_image_options gd mopts (some popts)) popts =
      merge_image_options gd mopts (some popts) ∧
    (∀ run_id created_at mode model_name prompt_id,
      jGet (imageMetadata run_id created_at mode model_name prompt_id
          (merge_image_options gd mopts (some popts))) "generation_options" =
        some (.obj (merge_image_options gd mopts (some popts)))) ∧
    (∀ (env : ImageEnv) (run_id created_at : String) (run_path : FsPath)
        (model : ImageModelDict) (sd : Dict String JVal) (mode_filter : String)
        (tr : Trace) (prompt : ImagePromptDict),
      prompt.options = popts → model.generation_options = mopts →
      (mode_filter = "all" ∨ prompt.mode = mode_filter) →
      (image_prompt_step env run_id created_at run_path gd model sd mode_filter
        tr prompt).events =
        Event.sdGenerate (merge_image_options gd mopts (some popts)) :: tr.events) := by
  have heq : merge_image_options gd mopts (some popts) =
      merge_options gd mopts (some popts) := rfl
  have hmerged : NodupKeys (merge_options gd mopts (some popts)) :=
    nodupKeys_merge_options gd mopts (some popts)
  have hvals : ∀ k v, (k, v) ∈ popts →
      dlookup (merge_options gd mopts (some popts)) k = some v := by
    intro k v hkv
    rw [merge_options_dlookup gd mopts (some popts) hg hm (by simpa using hp)]
    unfold specLayerValue
    rw [show (some popts).getD ([] : Dict String JVal) = popts from rfl]
    rw [dlookup_of_mem_nodup popts k v hp hkv]
  have hmain : generate_image_params (merge_image_options gd mopts (some popts)) popts =
      merge_image_options gd mopts (some popts) := by
    rw [heq]
    exact pyUpdate_eq_self _ _ hmerged hvals
  refine ⟨hmain, ?_, ?_⟩
  · intro run_id created_at mode model_name prompt_id
    simp [imageMetadata, jGet, dlookup]
  · intro env run_id created_at run_path model sd mode_filter tr prompt hpo hmo hfil
    have hcond : ¬ (mode_filter ≠ "all" ∧ prompt.mode ≠ mode_filter) := by
      rcases hfil with h | h
      · intro hc
        exact hc.1 h
      · intro hc
        exact hc.2 h
    simp only [image_prompt_step, if_neg hcond]
    rw [hpo, hmo]
    rw [hmain]

/-- Witness for C6 at concrete option layers. -/
theorem generate_image_passthrough_C6_witness :
    generate_image_params
        (merge_image_options (some [("width", .int 512)]) (some [("cfg_scale", .rat 1)])
          (some [("seed", .int 42), ("width", .int 768)]))
        [("seed", .int 42), ("width", .int 768)] =
      merge_image_options (some [("width", .int 512)]) (some [("cfg_scale", .rat 1)])
        (some [("seed", .int 42), ("width", .int 768)]) :=
  (generate_image_passthrough_C6 (some [("width", .int 512)]) (some [("cfg_scale", .rat 1)])
    [("seed", .int 42), ("width", .int 768)] (by decide) (by decide) (by decide)).1

/-! ## Aliasing model for the frame claims

Python dict variables are references; the merge functions and
`generate_image` are re-embedded over an explicit store of dict objects
so that "never mutates its arguments" is a statement, not a modelling
assumption. -/

/-- Address of a dict object in the store. -/
abbrev Addr := Nat

/-- The heap of dict objects. -/
structure Store where
  cells : List (Dict String JVal)

/-- Dereference a dict variable. -/
def Store.read (σ : Store) (a : Addr) : Dict String JVal := σ.cells.getD a []

/-- Allocate a fresh dict object (a dict literal or `dict(...)` copy). -/
def Store.alloc (σ : Store) (d : Dict String JVal) : Addr × Store :=
  (σ.cells.length, ⟨σ.cells ++ [d]⟩)

/-- `target.update(src)`: mutate the target object in place. -/
def dict_update_inplace (σ : Store) (a : Addr) (src : Dict String JVal) : Store :=
  ⟨σ.cells.set a (pyUpdate (σ.cells.getD a []) src)⟩

/-- One guarded layer application `if layer: merged.update(layer)` of
the merge functions, over the store. -/
def layer_update (σ : Store) (merged : Addr) (o : Option Addr) : Store :=
  match o with
  | none => σ
  | some a => if (σ.read a).isEmpty then σ else dict_update_inplace σ merged (σ.read a)

/-- `merge_options` as the imperative program of the source: allocate
`merged = {}` and apply the three layers in place. -/
def merge_options_imp (σ : Store) (g m p : Option Addr) : Addr × Store :=
  let (merged, σ1) := σ.alloc []
  let σ2 := layer_update σ1 merged g
  let σ3 := layer_update σ2 merged m
  let σ4 := layer_update σ3 merged p
  (merged, σ4)

/-- `merge_image_options` as the same imperative program. -/
def merge_image_options_imp (σ : Store) (g m p : Option Addr) : Addr × Store :=
  let (merged, σ1) := σ.alloc []
  let σ2 := layer_update σ1 merged g
  let σ3 := layer_update σ2 merged m
  let σ4 := layer_update σ3 merged p
  (merged, σ4)

/-- The parameter construction of `generate_image` over the store:
`params = dict(options)` allocates a copy, then
`params.update(prompt_config["options"])` mutates only the copy. -/
def generate_image_params_imp (σ : Store) (options : Addr) (prompt_options : Addr) :
    Addr × Store :=
  let (params, σ1) := σ.alloc (σ.read options)
  let σ2 := dict_update_inplace σ1 params (σ1.read prompt_options)
  (params, σ2)

theorem store_read_alloc (σ : Store) (d : Dict String JVal) (a : Addr)
    (h : a < σ.cells.length) : ((σ.alloc d).2).read a = σ.read a := by
  show (σ.cells ++ [d]).getD a [] = σ.cells.getD a []
  exact List.getD_append σ.cells [d] [] a h

theorem store_read_alloc_self (σ : Store) (d : Dict String JVal) :
    ((σ.alloc d).2).read (σ.alloc d).1 = d := by
  show (σ.cells ++ [d]).getD σ.cells.length [] = d
  rw [List.getD_eq_getElem?_getD, List.getElem?_concat_length]
  rfl

theorem store_read_set_ne (σ : Store) (a b : Addr) (d : Dict String JVal) (h : b ≠ a) :
    (Store.mk (σ.cells.set a d)).read b = σ.read b := by
  show (σ.cells.set a d).getD b [] = σ.cells.getD b []
  rw [List.getD_eq_getElem?_getD, List.getD_eq_getElem?_getD,
    List.getElem?_set_ne (fun hc => h hc.symm)]

theorem dict_update_inplace_read_ne (σ : Store) (a b : Addr) (src : Dict String JVal)
    (h : b ≠ a) : (dict_update_inplace σ a src).read b = σ.read b :=
  store_read_set_ne σ a b _ h

theorem layer_update_read_ne (σ : Store) (merged b : Addr) (o : Option Addr)
    (h : b ≠ merged) : (layer_update σ merged o).read b = σ.read b := by
  cases o with
  | none => rfl
  | some a =>
    show (if (σ.read a).isEmpty then σ else dict_update_inplace σ merged (σ.read a)).read b =
      σ.read b
    split
    · rfl
    · exact dict_update_inplace_read_ne σ merged b _ h

/-- C10: the merge functions allocate and return a fresh map and leave
every pre-existing dict object unchanged, and `generate_image` copies
the merged map before overlaying the prompt options, so the caller's
`merged_options` object (and the prompt's own options object) hold the
same value after the call as before it, while the dict actually passed
to the backend is the fresh copy with the prompt options applied. -/
theorem merge_no_mutation_C10 (σ : Store) (g m p : Option Addr)
    (options prompt_options : Addr)
    (hopt : options < σ.cells.length) (hpo : prompt_options < σ.cells.length) :
    (∀ a, a < σ.cells.length → ((merge_options_imp σ g m p).2).read a = σ.read a) ∧
    (∀ a, a < σ.cells.length →
      ((merge_image_options_imp σ g m p).2).read a = σ.read a) ∧
    ((generate_image_params_imp σ options prompt_options).2).read options =
      σ.read options ∧
    ((generate_image_params_imp σ options prompt_options).2).read prompt_options =
      σ.read prompt_options ∧
    ((generate_image_params_imp σ options prompt_options).2).read
        (generate_image_params_imp σ options prompt_options).1 =
      pyUpdate (σ.read options) (σ.read prompt_options) := by
  have hframe : ∀ a, a < σ.cells.length →
      ((merge_options_imp σ g m p).2).read a = σ.read a := by
    intro a ha
    have hne : a ≠ σ.cells.length := Nat.ne_of_lt ha
    show (layer_update (layer_update (layer_update (σ.alloc []).2 σ.cells.length g)
        σ.cells.length m) σ.cells.length p).read a = σ.read a
    rw [layer_update_read_ne _ _ _ _ hne, layer_update_read_ne _ _ _ _ hne,
      layer_update_read_ne _ _ _ _ hne]
    exact store_read_alloc σ [] a ha
  have hparams1 : ((σ.alloc (σ.read options)).2).read prompt_options =
      σ.read prompt_options := store_read_alloc σ _ _ hpo
  refine ⟨hframe, hframe, ?_, ?_, ?_⟩
  · show (dict_update_inplace (σ.alloc (σ.read options)).2 σ.cells.length _).read options =
      σ.read options
    rw [dict_update_inplace_read_ne _ _ _ _ (Nat.ne_of_lt hopt)]
    exact store_read_alloc σ _ _ hopt
  · show (dict_update_inplace (σ.alloc (σ.read options)).2 σ.cells.length _).read
        prompt_options = σ.read prompt_options
    rw [dict_update_inplace_read_ne _ _ _ _ (Nat.ne_of_lt hpo)]
    exact hparams1
  · show (dict_update_inplace (σ.alloc (σ.read options)).2 σ.cells.length
        (((σ.alloc (σ.read options)).2).read prompt_options)).read σ.cells.length =
      pyUpdate (σ.read options) (σ.read prompt_options)
    rw [hparams1]
    show ((((σ.alloc (σ.read options)).2).cells.set σ.cells.length
        (pyUpdate ((((σ.alloc (σ.read options)).2).cells).getD σ.cells.length [])
          (σ.read prompt_options))) : List (Dict String JVal)).getD σ.cells.length [] =
      pyUpdate (σ.read options) (σ.read prompt_options)
    have hlen : σ.cells.length < ((σ.alloc (σ.read options)).2).cells.length := by
      show σ.cells.length < (σ.cells ++ [σ.read options]).length
      simp
    rw [List.getD_eq_getElem?_getD, List.getElem?_set_self hlen]
    have hself : (((σ.alloc (σ.read options)).2).cells).getD σ.cells.length [] =
        σ.read options := store_read_alloc_self σ (σ.read options)
    rw [hself]
    rfl

/-- Witness for C10 at a concrete two-object store: the merged-options
object is unchanged by the parameter construction of `generate_image`. -/
theorem merge_no_mutation_C10_witness :
    ((generate_image_params_imp ⟨[[("a", JVal.int 1)], [("b", JVal.int 2)]]⟩ 0 1).2).read 0 =
      (Store.mk [[("a", JVal.int 1)], [("b", JVal.int 2)]]).read 0 :=
  (merge_no_mutation_C10 ⟨[[("a", JVal.int 1)], [("b", JVal.int 2)]]⟩ none none none 0 1
    (by decide) (by decide)).2.2.1
